import Mathlib

/-!
Shallow embedding of the Kubefi NiFi deployment controller
(src/kubefi-deployments/src/controller.rs and
src/kubefi-deployments/src/controller/configmap.rs).

The cluster API is modelled by an oracle `Env` that answers each typed
call (get / create / delete / list).  Every controller operation is a pure
function returning its result together with the ordered trace of cluster
calls it issued (`List ApiCall`).  Renderer invocations are additionally
recorded as `ApiCall.render` instrumentation events so that theorems can
speak about which owner-name argument a template was invoked with; these
render events are not cluster calls (`kindOfCall` returns `none` on them).

Concurrent fan-out (futures joined by `join`, `join3`, `join5`,
`join_all` in the source) is single-threaded cooperative scheduling in
which every branch runs to completion before the results are combined
with `Result::and`; the embedding runs the branches of one tier in their
textual order and concatenates their traces.  The claims proved below
only concern per-tier aggregates (counts, membership, cross-tier
ordering), which are invariant under the interleaving inside a tier.
-/

/-- Resource kinds handled by the controller (typed `Api<T>` instances in
the source: ConfigMap, StatefulSet, Service, Ingress). -/
inductive Kind : Type
  | ConfigMapK
  | StatefulSetK
  | ServiceK
  | IngressK
deriving DecidableEq

/-- A cluster resource as far as the controller observes it: its metadata
name (`Meta::name`) and, for ConfigMaps, the `data` payload compared by
the drift check in configmap.rs. -/
structure Resource : Type where
  name : String
  data : Option (List (String × String))
deriving DecidableEq

/-- One event of the controller's interaction trace: the four cluster
calls, plus `render` instrumentation recording that a template was
invoked with a given owner-name argument. -/
inductive ApiCall : Type
  | get : Kind → String → String → ApiCall
  | create : Kind → String → String → ApiCall
  | delete : Kind → String → String → ApiCall
  | list : Kind → String → String → ApiCall
  | render : String → String → ApiCall
deriving DecidableEq

/-- Error type: the two `ControllerError` variants of the source plus
`apiError` (an anyhow-wrapped upstream cluster-API failure) and
`parseError` (serde_yaml deserialization failure). -/
inductive Err : Type
  | missingProperty : String → String → Err
  | missingTemplateParameter : String → Err
  | apiError : String → Err
  | parseError : String → Err
deriving DecidableEq

/-- The Display implementation of ControllerError (controller.rs lines
40-51); `apiError` and `parseError` display their wrapped message. -/
def errToString : Err → String
  | Err.missingProperty property kind =>
      "Property \"" ++ property ++ "\" for " ++ kind ++ " resource is missing"
  | Err.missingTemplateParameter p =>
      "Template parameter \"" ++ p ++
        "\" is not specified in the resource nor in Kubefi-deployment controller config"
  | Err.apiError m => m
  | Err.parseError m => m

/-- Oracle answering the cluster-API calls the controller issues.  Each
answer depends only on the call's arguments, mirroring one snapshot of
cluster behaviour; theorems that need the cluster to change between two
invocations use two oracles. -/
structure Env : Type where
  getR : Kind → String → String → Except Err Resource
  createR : Kind → String → Resource → Except Err Resource
  deleteR : Kind → String → String → Except Err Unit
  listR : Kind → String → String → Except Err (List String)

/-- Object metadata of the custom resource: optional name and namespace. -/
structure Metadata : Type where
  name : Option String
  ns : Option String
deriving DecidableEq

/-- Optional LDAP auth configuration carried by the deployment spec
(crd.rs `AuthLdap`); its contents are opaque to the claims. -/
structure AuthLdap : Type where
  host : String
deriving DecidableEq

/-- The NiFiDeployment spec fields read by the controller. -/
structure NiFiSpec : Type where
  nifi_replicas : Nat
  zk_replicas : Nat
  image_name : Option String
  zk_image_name : Option String
  storage_class : Option String
  ldap : Option AuthLdap
deriving DecidableEq

/-- The custom resource delivered with each event. -/
structure NiFiDeployment : Type where
  metadata : Metadata
  spec : NiFiSpec
  kind : String
deriving DecidableEq

/-- Status payload written back by handle_action. -/
structure NiFiDeploymentStatus : Type where
  error : String
  last_action : String
deriving DecidableEq

/-- Result of handle_action: the deployment name plus the new status. -/
structure ReplaceStatus : Type where
  name : String
  status : NiFiDeploymentStatus
deriving DecidableEq

/-- The template renderer of controller.rs: each method takes the
owner-name argument (and, for statefulsets, replica count, image and
storage class) and yields an optional serialized manifest; none means the
feature is disabled. -/
structure Template : Type where
  zk_configmap : String → Except Err (Option String)
  nifi_configmap : String → Except Err (Option String)
  nifi_statefulset : String → Nat → Option String → Option String → Except Err (Option String)
  zk_statefulset : String → Nat → Option String → Option String → Except Err (Option String)
  nifi_service : String → Except Err (Option String)
  nifi_headless_service : String → Except Err (Option String)
  zk_service : String → Except Err (Option String)
  zk_headless_service : String → Except Err (Option String)
  ingress : String → Except Err (Option String)

/-- The controller value: cluster oracle, yaml deserializer (from_yaml /
serde_yaml, kind-independent here) and template renderer. -/
structure NiFiController : Type where
  env : Env
  parse : String → Except Err Resource
  template : Template

/-- Rust Result::and — keeps the first error, otherwise the second
result.  Used to combine joined future results exactly as the source
does. -/
def andE {α β : Type} : Except Err α → Except Err β → Except Err β
  | Except.error e, _ => Except.error e
  | Except.ok _, b => b

/-- Whether an Except result is ok. -/
def isOk {α : Type} : Except Err α → Bool
  | Except.ok _ => true
  | Except.error _ => false

/-- read_namespace (controller.rs lines 251-256). -/
def read_namespace (d : NiFiDeployment) : Except Err String :=
  match d.metadata.ns with
  | some ns => Except.ok ns
  | none => Except.error (Err.missingProperty "namespace" d.kind)

/-- read_name (controller.rs lines 258-263). -/
def read_name (d : NiFiDeployment) : Except Err String :=
  match d.metadata.name with
  | some n => Except.ok n
  | none => Except.error (Err.missingProperty "name" d.kind)

/-- zk_set_name (controller.rs lines 247-249). -/
def zk_set_name (name : String) : String :=
  name ++ "-zookeeper"

/-- create_from_yaml (controller.rs lines 265-289): fetch by `name`; any
fetch error is treated as absence, in which case the renderer is invoked
with `cr_name`; a missing manifest yields ok-none; otherwise the manifest
is parsed and created (the create call carries the parsed resource, whose
own name it posts).  A successful fetch returns the live resource
unchanged with no render and no create. -/
def create_from_yaml (env : Env) (parse : String → Except Err Resource)
    (k : Kind) (tpl : String) (name cr_name ns : String)
    (yaml : String → Except Err (Option String)) :
    Except Err (Option Resource) × List ApiCall :=
  match env.getR k name ns with
  | Except.ok cm => (Except.ok (some cm), [ApiCall.get k name ns])
  | Except.error _ =>
    match yaml cr_name with
    | Except.error e => (Except.error e, [ApiCall.get k name ns, ApiCall.render tpl cr_name])
    | Except.ok none => (Except.ok none, [ApiCall.get k name ns, ApiCall.render tpl cr_name])
    | Except.ok (some y) =>
      match parse y with
      | Except.error e =>
          (Except.error e, [ApiCall.get k name ns, ApiCall.render tpl cr_name])
      | Except.ok r =>
        match env.createR k ns r with
        | Except.error e =>
            (Except.error e,
             [ApiCall.get k name ns, ApiCall.render tpl cr_name, ApiCall.create k r.name ns])
        | Except.ok r2 =>
            (Except.ok (some r2),
             [ApiCall.get k name ns, ApiCall.render tpl cr_name, ApiCall.create k r.name ns])

/-- The zk-ConfigMap ensure branch of handle_event (lines 174-177). -/
def ev_zk_cm (c : NiFiController) (name ns : String) :
    Except Err (Option Resource) × List ApiCall :=
  create_from_yaml c.env c.parse Kind.ConfigMapK "zk-configmap"
    (name ++ "-zookeeper") name ns c.template.zk_configmap

/-- The nifi-ConfigMap ensure branch of handle_event (lines 179-182). -/
def ev_nifi_cm (c : NiFiController) (name ns : String) :
    Except Err (Option Resource) × List ApiCall :=
  create_from_yaml c.env c.parse Kind.ConfigMapK "nifi-configmap"
    (name ++ "-config") name ns c.template.nifi_configmap

/-- The nifi StatefulSet ensure branch of handle_event (lines 187-196). -/
def ev_nifi_sts (c : NiFiController) (d : NiFiDeployment) (name ns : String) :
    Except Err (Option Resource) × List ApiCall :=
  create_from_yaml c.env c.parse Kind.StatefulSetK "nifi-statefulset"
    name name ns
    (fun n => c.template.nifi_statefulset n d.spec.nifi_replicas d.spec.image_name
      d.spec.storage_class)

/-- The zk StatefulSet ensure branch of handle_event (lines 197-203). -/
def ev_zk_sts (c : NiFiController) (d : NiFiDeployment) (name ns : String) :
    Except Err (Option Resource) × List ApiCall :=
  create_from_yaml c.env c.parse Kind.StatefulSetK "zk-statefulset"
    (zk_set_name name) name ns
    (fun n => c.template.zk_statefulset n d.spec.zk_replicas d.spec.zk_image_name
      d.spec.storage_class)

/-- The nifi Service ensure branch of handle_event (lines 207-209). -/
def ev_service (c : NiFiController) (name ns : String) :
    Except Err (Option Resource) × List ApiCall :=
  create_from_yaml c.env c.parse Kind.ServiceK "nifi-service"
    name name ns c.template.nifi_service

/-- The headless Service ensure branch of handle_event (lines 211-215). -/
def ev_headless_service (c : NiFiController) (name ns : String) :
    Except Err (Option Resource) × List ApiCall :=
  create_from_yaml c.env c.parse Kind.ServiceK "nifi-headless-service"
    (name ++ "-headless") name ns c.template.nifi_headless_service

/-- The zk Service ensure branch of handle_event (lines 217-221). -/
def ev_zk_service (c : NiFiController) (name ns : String) :
    Except Err (Option Resource) × List ApiCall :=
  create_from_yaml c.env c.parse Kind.ServiceK "zk-service"
    (name ++ "-zookeeper") name ns c.template.zk_service

/-- The zk headless Service ensure branch of handle_event (lines 223-227). -/
def ev_zk_headless_service (c : NiFiController) (name ns : String) :
    Except Err (Option Resource) × List ApiCall :=
  create_from_yaml c.env c.parse Kind.ServiceK "zk-headless-service"
    (name ++ "-zookeeper-headless") name ns c.template.zk_headless_service

/-- The Ingress ensure branch of handle_event (lines 229-232). -/
def ev_ingress (c : NiFiController) (name ns : String) :
    Except Err (Option Resource) × List ApiCall :=
  create_from_yaml c.env c.parse Kind.IngressK "ingress"
    (name ++ "-ingress") name ns c.template.ingress

/-- handle_event (controller.rs lines 171-245): resolve the namespace,
then three tiers — ConfigMaps, StatefulSets, Services and Ingress — each
joined and combined with Result::and before the next tier starts. -/
def handle_event (c : NiFiController) (d : NiFiDeployment) (name : String) :
    Except Err Unit × List ApiCall :=
  match read_namespace d with
  | Except.error e => (Except.error e, [])
  | Except.ok ns =>
    let r1 := ev_zk_cm c name ns
    let r2 := ev_nifi_cm c name ns
    let t1 := r1.2 ++ r2.2
    match andE r1.1 r2.1 with
    | Except.error e => (Except.error e, t1)
    | Except.ok _ =>
      let s1 := ev_nifi_sts c d name ns
      let s2 := ev_zk_sts c d name ns
      let t2 := t1 ++ s1.2 ++ s2.2
      match andE s1.1 s2.1 with
      | Except.error e => (Except.error e, t2)
      | Except.ok _ =>
        let v1 := ev_service c name ns
        let v2 := ev_headless_service c name ns
        let v3 := ev_zk_service c name ns
        let v4 := ev_zk_headless_service c name ns
        let v5 := ev_ingress c name ns
        let t3 := t2 ++ v1.2 ++ v2.2 ++ v3.2 ++ v4.2 ++ v5.2
        match andE (andE (andE (andE v1.1 v2.1) v3.1) v4.1) v5.1 with
        | Except.error e => (Except.error e, t3)
        | Except.ok _ => (Except.ok (), t3)

/-- The status.error string computed by handle_action: the displayed
handle_event error, or the empty string on success. -/
def statusErr (r : Except Err Unit) : String :=
  match r with
  | Except.ok _ => ""
  | Except.error e => errToString e

/-- handle_action (controller.rs lines 82-100): a missing name propagates
MissingProperty outward; otherwise the handle_event outcome is captured
in status.error and the call returns ok. -/
def handle_action (c : NiFiController) (d : NiFiDeployment) (last_action : String) :
    Except Err (Option ReplaceStatus) × List ApiCall :=
  match d.metadata.name with
  | none => (Except.error (Err.missingProperty "name" d.kind), [])
  | some name =>
    let r := handle_event c d name
    (Except.ok (some { name := name,
                       status := { error := statusErr r.1, last_action := last_action } }),
     r.2)

/-- on_add (controller.rs lines 78-80). -/
def on_add (c : NiFiController) (d : NiFiDeployment) :
    Except Err (Option ReplaceStatus) × List ApiCall :=
  handle_action c d "add"

/-- on_modify (controller.rs lines 102-104). -/
def on_modify (c : NiFiController) (d : NiFiDeployment) :
    Except Err (Option ReplaceStatus) × List ApiCall :=
  handle_action c d "modify"

/-- The fixed ownership label query of on_delete (controller.rs line 119). -/
def cascade_labels : String :=
  "app.kubernetes.io/managed-by=Kubefi,release=nifi"

/-- delete_resources (controller.rs lines 130-151): list matching names,
then issue one delete per name; join_all runs every delete, and the fold
with Result::and fails iff any single delete failed. -/
def delete_resources (env : Env) (k : Kind) (ns : String) (lp : String) :
    Except Err Unit × List ApiCall :=
  match env.listR k ns lp with
  | Except.error e => (Except.error e, [ApiCall.list k ns lp])
  | Except.ok names =>
    let results := names.map (fun n => env.deleteR k n ns)
    let calls := names.map (fun n => ApiCall.delete k n ns)
    (results.foldl (fun acc r => andE acc r) (Except.ok ()), ApiCall.list k ns lp :: calls)

/-- on_delete (controller.rs lines 106-128): namespace and name are
resolved; both StatefulSets are deleted by derived name and the joined
results combined with Result::and and the question-mark operator — a
StatefulSet delete failure therefore returns before the label-query
phase; otherwise Services, ConfigMaps and Ingresses matching the
ownership labels are listed and deleted per kind. -/
def on_delete (env : Env) (d : NiFiDeployment) :
    Except Err Unit × List ApiCall :=
  match read_namespace d with
  | Except.error e => (Except.error e, [])
  | Except.ok ns =>
    match read_name d with
    | Except.error e => (Except.error e, [])
    | Except.ok cr_name =>
      let r1 := env.deleteR Kind.StatefulSetK cr_name ns
      let r2 := env.deleteR Kind.StatefulSetK (zk_set_name cr_name) ns
      let t1 := [ApiCall.delete Kind.StatefulSetK cr_name ns,
                 ApiCall.delete Kind.StatefulSetK (zk_set_name cr_name) ns]
      match andE r1 r2 with
      | Except.error e => (Except.error e, t1)
      | Except.ok _ =>
        let svc := delete_resources env Kind.ServiceK ns cascade_labels
        let cm := delete_resources env Kind.ConfigMapK ns cascade_labels
        let ing := delete_resources env Kind.IngressK ns cascade_labels
        (andE (andE svc.1 cm.1) ing.1, t1 ++ svc.2 ++ cm.2 ++ ing.2)

/-- The either type returned by the kube delete/get-or-create wrappers
(either crate in the source). -/
inductive EitherLR (α β : Type) : Type
  | left : α → EitherLR α β
  | right : β → EitherLR α β
deriving DecidableEq

/-- Template renderer as used by the ConfigMapController of configmap.rs:
the nifi configmap template additionally receives the optional LDAP
configuration. -/
structure CmTemplate : Type where
  zk_configmap : String → Except Err (Option String)
  nifi_configmap : String → Option AuthLdap → Except Err (Option String)

/-- Modelled from the spec: the free function controller::get_or_create
imported by configmap.rs is not under src (only its caller is).  Per
section 4.2 it fetches by resourceName and returns the live resource
unchanged when found; when absent it invokes render(ownerName), where a
missing manifest means the feature is disabled (no error), and otherwise
parses and creates the manifest.  The Either result distinguishes a
pre-existing resource (left some) — the only case the caller
drift-checks — from a freshly created one (right) or a disabled feature
(left none), matching the match in handle_configmaps lines 40-46. -/
def get_or_create (env : Env) (parse : String → Except Err Resource)
    (k : Kind) (tpl : String) (name cr_name ns : String)
    (yaml : String → Except Err (Option String)) :
    Except Err (EitherLR (Option Resource) Resource) × List ApiCall :=
  match env.getR k name ns with
  | Except.ok r => (Except.ok (EitherLR.left (some r)), [ApiCall.get k name ns])
  | Except.error _ =>
    match yaml cr_name with
    | Except.error e => (Except.error e, [ApiCall.get k name ns, ApiCall.render tpl cr_name])
    | Except.ok none =>
        (Except.ok (EitherLR.left none), [ApiCall.get k name ns, ApiCall.render tpl cr_name])
    | Except.ok (some y) =>
      match parse y with
      | Except.error e =>
          (Except.error e, [ApiCall.get k name ns, ApiCall.render tpl cr_name])
      | Except.ok r =>
        match env.createR k ns r with
        | Except.error e =>
            (Except.error e,
             [ApiCall.get k name ns, ApiCall.render tpl cr_name, ApiCall.create k r.name ns])
        | Except.ok r2 =>
            (Except.ok (EitherLR.right r2),
             [ApiCall.get k name ns, ApiCall.render tpl cr_name, ApiCall.create k r.name ns])

/-- Modelled from the spec: the free function controller::create_from_yaml
imported by configmap.rs (signature name, ns, client, yaml) is not under
src.  Per section 4.2 it is the ensure primitive with the fetch name and
the owner name both equal to its single name argument; it is embedded by
reusing the method-form create_from_yaml of controller.rs with
cr_name equal to name. -/
def cm_create_from_yaml (env : Env) (parse : String → Except Err Resource)
    (k : Kind) (tpl : String) (name ns : String)
    (yaml : String → Except Err (Option String)) :
    Except Err (Option Resource) × List ApiCall :=
  create_from_yaml env parse k tpl name name ns yaml

/-- recreate_cm (configmap.rs lines 75-92): delete the nifi ConfigMap by
its derived name, then run the ensure-create path with the deployment
name as its name argument, rendering the nifi configmap template. -/
def recreate_cm (env : Env) (parse : String → Except Err Resource)
    (t : CmTemplate) (name ns nifi_cm_name : String) (ldap : Option AuthLdap) :
    Except Err Unit × List ApiCall :=
  match env.deleteR Kind.ConfigMapK nifi_cm_name ns with
  | Except.error e => (Except.error e, [ApiCall.delete Kind.ConfigMapK nifi_cm_name ns])
  | Except.ok _ =>
    let r := cm_create_from_yaml env parse Kind.ConfigMapK "nifi-configmap" name ns
      (fun n => t.nifi_configmap n ldap)
    (r.1.map (fun _ => ()), ApiCall.delete Kind.ConfigMapK nifi_cm_name ns :: r.2)

/-- handle_update (configmap.rs lines 49-73): re-render the desired nifi
ConfigMap with cm_name as the owner argument, compare only the data
payload of the parsed manifest against the live resource, and on
mismatch delete-then-recreate; a match or a missing manifest does
nothing and returns false. -/
def handle_update (env : Env) (parse : String → Except Err Resource)
    (t : CmTemplate) (d : NiFiDeployment) (name ns cm_name : String)
    (current : Resource) :
    Except Err Bool × List ApiCall :=
  match t.nifi_configmap cm_name d.spec.ldap with
  | Except.error e => (Except.error e, [ApiCall.render "nifi-configmap" cm_name])
  | Except.ok none => (Except.ok false, [ApiCall.render "nifi-configmap" cm_name])
  | Except.ok (some y) =>
    match parse y with
    | Except.error e => (Except.error e, [ApiCall.render "nifi-configmap" cm_name])
    | Except.ok expected_cm =>
      if current.data ≠ expected_cm.data then
        let r := recreate_cm env parse t name ns cm_name d.spec.ldap
        (r.1.map (fun _ => true), ApiCall.render "nifi-configmap" cm_name :: r.2)
      else
        (Except.ok false, [ApiCall.render "nifi-configmap" cm_name])

/-- handle_configmaps (configmap.rs lines 20-47, the syncConfigData of
the spec): ensure both ConfigMaps via get_or_create — the owner-name
argument of both is the deployment name — then, only when the nifi
ConfigMap already existed, run handle_update against it with the derived
nifi ConfigMap name; a freshly created or disabled nifi ConfigMap yields
false. -/
def handle_configmaps (env : Env) (parse : String → Except Err Resource)
    (t : CmTemplate) (d : NiFiDeployment) (name ns : String) :
    Except Err Bool × List ApiCall :=
  let zk := get_or_create env parse Kind.ConfigMapK "zk-configmap"
    (name ++ "-zookeeper") name ns t.zk_configmap
  let nifi := get_or_create env parse Kind.ConfigMapK "nifi-configmap"
    (name ++ "-config") name ns (fun n => t.nifi_configmap n d.spec.ldap)
  let t0 := zk.2 ++ nifi.2
  match andE zk.1 nifi.1 with
  | Except.error e => (Except.error e, t0)
  | Except.ok nifi_cm =>
    match nifi_cm with
    | EitherLR.left (some cm) =>
      let r := handle_update env parse t d name ns (name ++ "-config") cm
      (r.1, t0 ++ r.2)
    | EitherLR.left none => (Except.ok false, t0)
    | EitherLR.right _ => (Except.ok false, t0)

/-- The kind of a cluster call; render instrumentation events have none. -/
def kindOfCall : ApiCall → Option Kind
  | ApiCall.get k _ _ => some k
  | ApiCall.create k _ _ => some k
  | ApiCall.delete k _ _ => some k
  | ApiCall.list k _ _ => some k
  | ApiCall.render _ _ => none

/-- Whether a trace event is a get call. -/
def isGetCall : ApiCall → Bool
  | ApiCall.get _ _ _ => true
  | _ => false

/-- Whether a trace event is a create call. -/
def isCreateCall : ApiCall → Bool
  | ApiCall.create _ _ _ => true
  | _ => false

/-- Whether a trace event is a delete call. -/
def isDeleteCall : ApiCall → Bool
  | ApiCall.delete _ _ _ => true
  | _ => false

/-- Whether a trace event is a render instrumentation event. -/
def isRenderCall : ApiCall → Bool
  | ApiCall.render _ _ => true
  | _ => false

/-- Whether a trace event is a create call of the given kind. -/
def isCreateOfKind (k : Kind) : ApiCall → Bool
  | ApiCall.create k2 _ _ => decide (k2 = k)
  | _ => false

/-- Number of create calls in a trace. -/
def countCreates (t : List ApiCall) : Nat :=
  t.countP isCreateCall

/-- Number of delete calls in a trace. -/
def countDeletes (t : List ApiCall) : Nat :=
  t.countP isDeleteCall

/-- Number of render events in a trace. -/
def countRenders (t : List ApiCall) : Nat :=
  t.countP isRenderCall

/-- Number of create calls of one kind in a trace. -/
def countCreatesOf (k : Kind) (t : List ApiCall) : Nat :=
  t.countP (isCreateOfKind k)

/-- Number of cluster calls of one kind in a trace (render events do not
count). -/
def callsOfKind (k : Kind) (t : List ApiCall) : Nat :=
  t.countP (fun a => decide (kindOfCall a = some k))

/-- The absent-resource path of create_from_yaml (the body of its fetch
Err branch, controller.rs lines 277-286): render with the owner name,
return none when the manifest is missing, otherwise parse and create.
It takes no fetch-error argument, so an equality with it states that the
ensure path is independent of which error the fetch produced. -/
def ensure_absent (env : Env) (parse : String → Except Err Resource)
    (k : Kind) (tpl : String) (name cr_name ns : String)
    (yaml : String → Except Err (Option String)) :
    Except Err (Option Resource) × List ApiCall :=
  match yaml cr_name with
  | Except.error e => (Except.error e, [ApiCall.get k name ns, ApiCall.render tpl cr_name])
  | Except.ok none => (Except.ok none, [ApiCall.get k name ns, ApiCall.render tpl cr_name])
  | Except.ok (some y) =>
    match parse y with
    | Except.error e =>
        (Except.error e, [ApiCall.get k name ns, ApiCall.render tpl cr_name])
    | Except.ok r =>
      match env.createR k ns r with
      | Except.error e =>
          (Except.error e,
           [ApiCall.get k name ns, ApiCall.render tpl cr_name, ApiCall.create k r.name ns])
      | Except.ok r2 =>
          (Except.ok (some r2),
           [ApiCall.get k name ns, ApiCall.render tpl cr_name, ApiCall.create k r.name ns])

/-- A parser for witnesses: the manifest text becomes the resource name
and a one-entry data payload derived from it. -/
def parse0 : String → Except Err Resource :=
  fun s => Except.ok { name := s, data := some [("data", s)] }

/-- A renderer used by witnesses: every template produces a manifest. -/
def tmplOk : Template where
  zk_configmap := fun n => Except.ok (some ("zk-cm-" ++ n))
  nifi_configmap := fun n => Except.ok (some ("nifi-cm-" ++ n))
  nifi_statefulset := fun n _ _ _ => Except.ok (some ("nifi-sts-" ++ n))
  zk_statefulset := fun n _ _ _ => Except.ok (some ("zk-sts-" ++ n))
  nifi_service := fun n => Except.ok (some ("nifi-svc-" ++ n))
  nifi_headless_service := fun n => Except.ok (some ("nifi-hsvc-" ++ n))
  zk_service := fun n => Except.ok (some ("zk-svc-" ++ n))
  zk_headless_service := fun n => Except.ok (some ("zk-hsvc-" ++ n))
  ingress := fun n => Except.ok (some ("ing-" ++ n))

/-- Renderer whose zk configmap template fails. -/
def tmplZkErr : Template :=
  { tmplOk with zk_configmap := fun _ => Except.error (Err.apiError "zk template failed") }

/-- Renderer whose ingress template yields no manifest (feature off). -/
def tmplIngNone : Template :=
  { tmplOk with ingress := fun _ => Except.ok none }

/-- Oracle on which every fetch finds a live resource. -/
def envAllGet : Env where
  getR := fun _ n _ => Except.ok { name := n, data := some [("live", n)] }
  createR := fun _ _ r => Except.ok r
  deleteR := fun _ _ _ => Except.ok ()
  listR := fun _ _ _ => Except.ok []

/-- Oracle on which every fetch fails (resource absent) and creation
succeeds. -/
def envAbsent : Env where
  getR := fun _ _ _ => Except.error (Err.apiError "not found")
  createR := fun _ _ r => Except.ok r
  deleteR := fun _ _ _ => Except.ok ()
  listR := fun _ _ _ => Except.ok []

/-- Deployment spec used by witnesses. -/
def spec0 : NiFiSpec where
  nifi_replicas := 1
  zk_replicas := 1
  image_name := none
  zk_image_name := none
  storage_class := none
  ldap := none

/-- Witness deployment with both identity fields present. -/
def dW : NiFiDeployment where
  metadata := { name := some "nifi", ns := some "ns1" }
  spec := spec0
  kind := "NiFiDeployment"

/-- Witness deployment with no name. -/
def dNoName : NiFiDeployment where
  metadata := { name := none, ns := some "ns1" }
  spec := spec0
  kind := "NiFiDeployment"

/-- Witness deployment with a name but no namespace. -/
def dNoNs : NiFiDeployment where
  metadata := { name := some "nifi", ns := none }
  spec := spec0
  kind := "NiFiDeployment"

/-- Controller over the all-found oracle. -/
def ctrlAllGet : NiFiController where
  env := envAllGet
  parse := parse0
  template := tmplOk

/-- Controller over the all-absent oracle. -/
def ctrlAbsent : NiFiController where
  env := envAbsent
  parse := parse0
  template := tmplOk

/-- Controller whose zk configmap template fails over the absent oracle. -/
def ctrlZkErr : NiFiController where
  env := envAbsent
  parse := parse0
  template := tmplZkErr

/-- Controller with the ingress feature disabled over the all-found
oracle. -/
def ctrlIngNone : NiFiController where
  env := envAllGet
  parse := parse0
  template := tmplIngNone

/-- Oracle for the cascade counterexample: the nifi StatefulSet delete
fails, every other delete succeeds, and the label query would find three
Services, two ConfigMaps and one Ingress. -/
def envC2x : Env where
  getR := fun _ _ _ => Except.error (Err.apiError "not found")
  createR := fun _ _ r => Except.ok r
  deleteR := fun k n _ =>
    if k = Kind.StatefulSetK ∧ n = "nifi" then Except.error (Err.apiError "boom")
    else Except.ok ()
  listR := fun k _ _ =>
    match k with
    | Kind.ServiceK => Except.ok ["s1", "s2", "s3"]
    | Kind.ConfigMapK => Except.ok ["c1", "c2"]
    | Kind.IngressK => Except.ok ["i1"]
    | Kind.StatefulSetK => Except.ok []

/-- Same cluster content as envC2x but with every delete succeeding. -/
def envC2ok : Env :=
  { envC2x with deleteR := fun _ _ _ => Except.ok () }

/-- Witness yaml renderer for the ensure-path claims. -/
def yamlW : String → Except Err (Option String) :=
  fun n => Except.ok (some ("y-" ++ n))

/-- Oracle for the drift witnesses: both derived ConfigMaps exist (the
nifi one with a stale payload), everything else is absent, and deletes
and creates succeed. -/
def envDrift : Env where
  getR := fun k n _ =>
    if k = Kind.ConfigMapK ∧ n = "nifi-config" then
      Except.ok { name := "nifi-config", data := some [("old", "x")] }
    else if k = Kind.ConfigMapK ∧ n = "nifi-zookeeper" then
      Except.ok { name := "nifi-zookeeper", data := none }
    else Except.error (Err.apiError "not found")
  createR := fun _ _ r => Except.ok r
  deleteR := fun _ _ _ => Except.ok ()
  listR := fun _ _ _ => Except.ok []

/-- ConfigMapController renderer used by witnesses. -/
def tcm0 : CmTemplate where
  zk_configmap := fun n => Except.ok (some ("zk-cm-" ++ n))
  nifi_configmap := fun n _ => Except.ok (some ("nifi-cm-" ++ n))

/-- Like tcm0 but the nifi configmap feature is disabled. -/
def tcmNone : CmTemplate :=
  { tcm0 with nifi_configmap := fun _ _ => Except.ok none }

theorem isOk_andE {α β : Type} (a : Except Err α) (b : Except Err β) :
    isOk (andE a b) = (isOk a && isOk b) := by
  cases a <;> cases b <;> simp [andE, isOk]

theorem isOk_ok_unit (x : Except Err Unit) : isOk x = true ↔ x = Except.ok () := by
  cases x with
  | ok u => cases u; simp [isOk]
  | error e => simp [isOk]

theorem isCreateOfKind_kind {k : Kind} {a : ApiCall} (h : isCreateOfKind k a = true) :
    kindOfCall a = some k := by
  cases a with
  | create k2 n m =>
    simp [isCreateOfKind, decide_eq_true_eq] at h
    simp [kindOfCall, h]
  | get k2 n m => simp [isCreateOfKind] at h
  | delete k2 n m => simp [isCreateOfKind] at h
  | list k2 n m => simp [isCreateOfKind] at h
  | render t o => simp [isCreateOfKind] at h

theorem isCreateOfKind_isCreate {k : Kind} {a : ApiCall} (h : isCreateOfKind k a = true) :
    isCreateCall a = true := by
  cases a <;> simp_all [isCreateOfKind, isCreateCall]

theorem callsOfKind_eq_zero {k : Kind} {t : List ApiCall}
    (h : ∀ a ∈ t, kindOfCall a ≠ some k) : callsOfKind k t = 0 := by
  rw [callsOfKind, List.countP_eq_zero]
  intro a ha hdec
  exact h a ha (of_decide_eq_true hdec)

theorem countCreatesOf_eq_zero {k : Kind} {t : List ApiCall}
    (h : ∀ a ∈ t, isCreateOfKind k a = false) : countCreatesOf k t = 0 := by
  rw [countCreatesOf, List.countP_eq_zero]
  intro a ha hdec
  rw [h a ha] at hdec
  exact Bool.false_ne_true hdec

theorem create_from_yaml_kinds (env : Env) (parse : String → Except Err Resource)
    (k : Kind) (tpl name cr_name ns : String) (yaml : String → Except Err (Option String)) :
    ∀ a ∈ (create_from_yaml env parse k tpl name cr_name ns yaml).2,
      kindOfCall a = some k ∨ kindOfCall a = none := by
  unfold create_from_yaml
  cases hg : env.getR k name ns with
  | ok r => simp [kindOfCall]
  | error e =>
    cases hy : yaml cr_name with
    | error e2 => simp [kindOfCall]
    | ok oy =>
      cases oy with
      | none => simp [kindOfCall]
      | some y =>
        cases hp : parse y with
        | error e3 => simp [hp, kindOfCall]
        | ok r =>
          cases hc : env.createR k ns r with
          | error e4 => simp [hp, hc, kindOfCall]
          | ok r2 => simp [hp, hc, kindOfCall]

theorem create_from_yaml_gets (env : Env) (parse : String → Except Err Resource)
    (k : Kind) (tpl name cr_name ns : String) (yaml : String → Except Err (Option String)) :
    (create_from_yaml env parse k tpl name cr_name ns yaml).2.filter isGetCall
      = [ApiCall.get k name ns] := by
  unfold create_from_yaml
  cases hg : env.getR k name ns with
  | ok r => simp [isGetCall]
  | error e =>
    cases hy : yaml cr_name with
    | error e2 => simp [isGetCall]
    | ok oy =>
      cases oy with
      | none => simp [isGetCall]
      | some y =>
        cases hp : parse y with
        | error e3 => simp [hp, isGetCall]
        | ok r =>
          cases hc : env.createR k ns r with
          | error e4 => simp [hp, hc, isGetCall]
          | ok r2 => simp [hp, hc, isGetCall]

theorem create_from_yaml_yaml_none (env : Env) (parse : String → Except Err Resource)
    (k : Kind) (tpl name cr_name ns : String) (yaml : String → Except Err (Option String))
    (h : yaml cr_name = Except.ok none) :
    isOk (create_from_yaml env parse k tpl name cr_name ns yaml).1 = true
    ∧ ∀ a ∈ (create_from_yaml env parse k tpl name cr_name ns yaml).2,
        isCreateCall a = false := by
  unfold create_from_yaml
  cases hg : env.getR k name ns with
  | ok r => simp [isOk, isCreateCall]
  | error e => simp [h, isOk, isCreateCall]

theorem create_from_yaml_calls_of (env : Env) (parse : String → Except Err Resource)
    (k : Kind) (tpl name cr_name ns : String) (yaml : String → Except Err (Option String))
    (k2 : Kind) (hne : k2 ≠ k) :
    callsOfKind k2 (create_from_yaml env parse k tpl name cr_name ns yaml).2 = 0 := by
  apply callsOfKind_eq_zero
  intro a ha h
  rcases create_from_yaml_kinds env parse k tpl name cr_name ns yaml a ha with h2 | h2
  · rw [h] at h2
    exact hne (Option.some.inj h2)
  · rw [h] at h2
    cases h2

theorem create_from_yaml_creates_of (env : Env) (parse : String → Except Err Resource)
    (k : Kind) (tpl name cr_name ns : String) (yaml : String → Except Err (Option String))
    (k2 : Kind) (hne : k2 ≠ k) :
    countCreatesOf k2 (create_from_yaml env parse k tpl name cr_name ns yaml).2 = 0 := by
  apply countCreatesOf_eq_zero
  intro a ha
  cases hb : isCreateOfKind k2 a with
  | false => rfl
  | true =>
    exfalso
    have hk := isCreateOfKind_kind hb
    rcases create_from_yaml_kinds env parse k tpl name cr_name ns yaml a ha with h2 | h2
    · rw [hk] at h2
      exact hne (Option.some.inj h2)
    · rw [hk] at h2
      cases h2

theorem get_or_create_render_mem (env : Env) (parse : String → Except Err Resource)
    (k : Kind) (tpl name cr_name ns : String) (yaml : String → Except Err (Option String))
    (m : Err) (h : env.getR k name ns = Except.error m) :
    ApiCall.render tpl cr_name ∈ (get_or_create env parse k tpl name cr_name ns yaml).2 := by
  unfold get_or_create
  rw [h]
  cases hy : yaml cr_name with
  | error e2 => simp
  | ok oy =>
    cases oy with
    | none => simp
    | some y =>
      cases hp : parse y with
      | error e3 => simp [hp]
      | ok r =>
        cases hc : env.createR k ns r with
        | error e4 => simp [hp, hc]
        | ok r2 => simp [hp, hc]

theorem handle_update_render_mem (env : Env) (parse : String → Except Err Resource)
    (t : CmTemplate) (d : NiFiDeployment) (name ns cm_name : String) (current : Resource) :
    ApiCall.render "nifi-configmap" cm_name
      ∈ (handle_update env parse t d name ns cm_name current).2 := by
  unfold handle_update
  cases hy : t.nifi_configmap cm_name d.spec.ldap with
  | error e => simp
  | ok oy =>
    cases oy with
    | none => simp
    | some y =>
      cases hp : parse y with
      | error e2 => simp [hp]
      | ok exp =>
        by_cases hd : current.data = exp.data
        · simp [hp, hd]
        · simp [hp, hd]

/-- Claim C7: for every deployment with name present but namespace
absent, handle_event fails with MissingProperty before any cluster-API
call (its trace is empty), so no Tier-1 create call is issued. -/
theorem thm_c7_missing_namespace (c : NiFiController) (d : NiFiDeployment) (name : String)
    (h : d.metadata.ns = none) :
    handle_event c d name = (Except.error (Err.missingProperty "namespace" d.kind), []) := by
  simp [handle_event, read_namespace, h]

/-- Witness for thm_c7_missing_namespace at a concrete deployment. -/
theorem thm_c7_missing_namespace_witness :
    dNoNs.metadata.ns = none
    ∧ handle_event ctrlAllGet dNoNs "nifi"
        = (Except.error (Err.missingProperty "namespace" "NiFiDeployment"), []) :=
  ⟨rfl, thm_c7_missing_namespace ctrlAllGet dNoNs "nifi" rfl⟩

/-- Claim C9: if the initial fetch-by-name call of the ensure path
returns an error of any kind, create_from_yaml behaves exactly as the
absent-resource path ensure_absent, which takes no fetch-error argument —
so the behaviour is independent of the fetch error and the error is never
returned; in particular, when the renderer produces a manifest and it
parses, a create call is issued. -/
theorem thm_c9_fetch_error (env : Env) (parse : String → Except Err Resource)
    (k : Kind) (tpl name cr_name ns : String) (yaml : String → Except Err (Option String))
    (m : Err) (h : env.getR k name ns = Except.error m) :
    create_from_yaml env parse k tpl name cr_name ns yaml
      = ensure_absent env parse k tpl name cr_name ns yaml
    ∧ (∀ y r, yaml cr_name = Except.ok (some y) → parse y = Except.ok r →
        countCreates (create_from_yaml env parse k tpl name cr_name ns yaml).2 = 1) := by
  constructor
  · unfold create_from_yaml ensure_absent
    rw [h]
  · intro y r hy hp
    cases hc : env.createR k ns r with
    | error e =>
      simp [create_from_yaml, h, hy, hp, hc, countCreates, List.countP_cons, isCreateCall,
        List.countP_nil]
    | ok r2 =>
      simp [create_from_yaml, h, hy, hp, hc, countCreates, List.countP_cons, isCreateCall,
        List.countP_nil]

/-- Witness for thm_c9_fetch_error at a concrete oracle. -/
theorem thm_c9_fetch_error_witness :
    envAbsent.getR Kind.ConfigMapK "a" "n" = Except.error (Err.apiError "not found")
    ∧ create_from_yaml envAbsent parse0 Kind.ConfigMapK "zk-configmap" "a" "o" "n" yamlW
        = ensure_absent envAbsent parse0 Kind.ConfigMapK "zk-configmap" "a" "o" "n" yamlW
    ∧ countCreates
        (create_from_yaml envAbsent parse0 Kind.ConfigMapK "zk-configmap" "a" "o" "n" yamlW).2
        = 1 :=
  ⟨rfl,
   (thm_c9_fetch_error envAbsent parse0 Kind.ConfigMapK "zk-configmap" "a" "o" "n" yamlW
     (Err.apiError "not found") rfl).1,
   (thm_c9_fetch_error envAbsent parse0 Kind.ConfigMapK "zk-configmap" "a" "o" "n" yamlW
     (Err.apiError "not found") rfl).2 "y-o"
     { name := "y-o", data := some [("data", "y-o")] } rfl rfl⟩

/-- Claim C5: invoking the ensure-create path twice in succession, the
resource existing (second oracle finds it) after the first invocation
created it, results in exactly one create call across both traces; and
when the fetch finds an existing resource it is returned unchanged with
no render and no create call. -/
theorem thm_c5_idempotent (env1 env2 : Env) (parse : String → Except Err Resource)
    (k : Kind) (tpl name cr_name ns : String) (yaml : String → Except Err (Option String))
    (m : Err) (y : String) (r r2 r3 : Resource)
    (h1 : env1.getR k name ns = Except.error m)
    (h2 : yaml cr_name = Except.ok (some y))
    (h3 : parse y = Except.ok r)
    (h4 : env1.createR k ns r = Except.ok r2)
    (h5 : env2.getR k name ns = Except.ok r3) :
    create_from_yaml env1 parse k tpl name cr_name ns yaml
      = (Except.ok (some r2),
         [ApiCall.get k name ns, ApiCall.render tpl cr_name, ApiCall.create k r.name ns])
    ∧ create_from_yaml env2 parse k tpl name cr_name ns yaml
      = (Except.ok (some r3), [ApiCall.get k name ns])
    ∧ countCreates ((create_from_yaml env1 parse k tpl name cr_name ns yaml).2
        ++ (create_from_yaml env2 parse k tpl name cr_name ns yaml).2) = 1
    ∧ countRenders (create_from_yaml env2 parse k tpl name cr_name ns yaml).2 = 0 := by
  have e1 : create_from_yaml env1 parse k tpl name cr_name ns yaml
      = (Except.ok (some r2),
         [ApiCall.get k name ns, ApiCall.render tpl cr_name, ApiCall.create k r.name ns]) := by
    simp [create_from_yaml, h1, h2, h3, h4]
  have e2 : create_from_yaml env2 parse k tpl name cr_name ns yaml
      = (Except.ok (some r3), [ApiCall.get k name ns]) := by
    simp [create_from_yaml, h5]
  refine ⟨e1, e2, ?_, ?_⟩
  · rw [e1, e2]
    simp [countCreates, List.countP_cons, List.countP_nil, isCreateCall]
  · rw [e2]
    simp [countRenders, List.countP_cons, List.countP_nil, isRenderCall]

/-- Witness for thm_c5_idempotent: a first run against the absent oracle
and a second against the all-found oracle. -/
theorem thm_c5_idempotent_witness :
    envAbsent.getR Kind.ConfigMapK "a" "n" = Except.error (Err.apiError "not found")
    ∧ envAllGet.getR Kind.ConfigMapK "a" "n"
        = Except.ok { name := "a", data := some [("live", "a")] }
    ∧ countCreates
        ((create_from_yaml envAbsent parse0 Kind.ConfigMapK "zk-configmap" "a" "o" "n" yamlW).2
         ++ (create_from_yaml envAllGet parse0 Kind.ConfigMapK "zk-configmap" "a" "o" "n"
              yamlW).2) = 1
    ∧ create_from_yaml envAllGet parse0 Kind.ConfigMapK "zk-configmap" "a" "o" "n" yamlW
        = (Except.ok (some { name := "a", data := some [("live", "a")] }),
           [ApiCall.get Kind.ConfigMapK "a" "n"]) :=
  ⟨rfl, rfl,
   (thm_c5_idempotent envAbsent envAllGet parse0 Kind.ConfigMapK "zk-configmap" "a" "o" "n"
     yamlW (Err.apiError "not found") "y-o"
     { name := "y-o", data := some [("data", "y-o")] }
     { name := "y-o", data := some [("data", "y-o")] }
     { name := "a", data := some [("live", "a")] }
     rfl rfl rfl rfl rfl).2.2.1,
   (thm_c5_idempotent envAbsent envAllGet parse0 Kind.ConfigMapK "zk-configmap" "a" "o" "n"
     yamlW (Err.apiError "not found") "y-o"
     { name := "y-o", data := some [("data", "y-o")] }
     { name := "y-o", data := some [("data", "y-o")] }
     { name := "a", data := some [("live", "a")] }
     rfl rfl rfl rfl rfl).2.1⟩

theorem callsOfKind_append (k : Kind) (t1 t2 : List ApiCall) :
    callsOfKind k (t1 ++ t2) = callsOfKind k t1 + callsOfKind k t2 := by
  simp [callsOfKind, List.countP_append]

theorem countCreatesOf_append (k : Kind) (t1 t2 : List ApiCall) :
    countCreatesOf k (t1 ++ t2) = countCreatesOf k t1 + countCreatesOf k t2 := by
  simp [countCreatesOf, List.countP_append]

theorem create_from_yaml_yaml_none_creates (env : Env) (parse : String → Except Err Resource)
    (k : Kind) (tpl name cr_name ns : String) (yaml : String → Except Err (Option String))
    (h : yaml cr_name = Except.ok none) (k2 : Kind) :
    countCreatesOf k2 (create_from_yaml env parse k tpl name cr_name ns yaml).2 = 0 := by
  apply countCreatesOf_eq_zero
  intro a ha
  cases hb : isCreateOfKind k2 a with
  | false => rfl
  | true =>
    have hc := isCreateOfKind_isCreate hb
    have hf := (create_from_yaml_yaml_none env parse k tpl name cr_name ns yaml h).2 a ha
    rw [hf] at hc
    exact Bool.noConfusion hc

/-- Claim C3 counterexample: for a deployment whose name is absent,
on_add does NOT return a status to the dispatcher — it fails outward with
MissingProperty (with an empty call trace), so the claim that onAdd never
returns an outward error is false at this input. -/
theorem thm_c3_counterexample :
    on_add ctrlAllGet dNoName
      = (Except.error (Err.missingProperty "name" "NiFiDeployment"), []) := rfl

/-- Claim C3 (amended): onAdd/onModify fail outward exactly when
metadata.name is absent — with MissingProperty naming the field and the
resource kind, whose display string mentions both, and zero cluster-API
calls; when the name is present they always return ok, and every internal
handle_event error is recorded as status.error (empty string on
success). -/
theorem thm_c3_status_amended (c : NiFiController) (d : NiFiDeployment) (la : String) :
    (d.metadata.name = none →
       handle_action c d la = (Except.error (Err.missingProperty "name" d.kind), [])
       ∧ errToString (Err.missingProperty "name" d.kind)
           = "Property \"name\" for " ++ d.kind ++ " resource is missing")
    ∧ (∀ n, d.metadata.name = some n →
       handle_action c d la
         = (Except.ok (some { name := n,
                              status := { error := statusErr (handle_event c d n).1,
                                          last_action := la } }),
            (handle_event c d n).2)
       ∧ ((handle_event c d n).1 = Except.ok () → statusErr (handle_event c d n).1 = "")
       ∧ (∀ e, (handle_event c d n).1 = Except.error e →
           statusErr (handle_event c d n).1 = errToString e)) := by
  constructor
  · intro h
    exact ⟨by simp [handle_action, h], rfl⟩
  · intro n h
    refine ⟨by simp [handle_action, h], ?_, ?_⟩
    · intro hok
      simp [statusErr, hok]
    · intro e he
      simp [statusErr, he]

/-- Witness for thm_c3_status_amended: with the name present and a failing
zk template, on_add returns ok and captures the failure in status.error. -/
theorem thm_c3_status_amended_witness :
    dW.metadata.name = some "nifi"
    ∧ handle_action ctrlZkErr dW "add"
        = (Except.ok (some { name := "nifi",
                             status := { error := statusErr (handle_event ctrlZkErr dW "nifi").1,
                                         last_action := "add" } }),
           (handle_event ctrlZkErr dW "nifi").2)
    ∧ statusErr (handle_event ctrlZkErr dW "nifi").1 = "zk template failed" :=
  ⟨rfl, ((thm_c3_status_amended ctrlZkErr dW "add").2 "nifi" rfl).1, rfl⟩

/-- Claim C1: for every deployment with namespace present, if the
zk-ConfigMap ensure (or the nifi-ConfigMap ensure) of Tier 1 fails, the
handle_event trace contains no StatefulSet call at all (in particular no
StatefulSet create) and no Service or Ingress call; and in general, if
Tier 1 succeeded but the joined Tier-2 result failed, no Service or
Ingress call is issued — later tiers run only after every task of the
earlier tier succeeded. -/
theorem thm_c1_tier_ordering (c : NiFiController) (d : NiFiDeployment) (name ns : String)
    (hns : d.metadata.ns = some ns) :
    (isOk (ev_zk_cm c name ns).1 = false ∨ isOk (ev_nifi_cm c name ns).1 = false →
       callsOfKind Kind.StatefulSetK (handle_event c d name).2 = 0
       ∧ callsOfKind Kind.ServiceK (handle_event c d name).2 = 0
       ∧ callsOfKind Kind.IngressK (handle_event c d name).2 = 0)
    ∧ (isOk (andE (ev_zk_cm c name ns).1 (ev_nifi_cm c name ns).1) = true →
       isOk (andE (ev_nifi_sts c d name ns).1 (ev_zk_sts c d name ns).1) = false →
       callsOfKind Kind.ServiceK (handle_event c d name).2 = 0
       ∧ callsOfKind Kind.IngressK (handle_event c d name).2 = 0) := by
  have hrd : read_namespace d = Except.ok ns := by simp [read_namespace, hns]
  constructor
  · intro hfail
    have hA : isOk (andE (ev_zk_cm c name ns).1 (ev_nifi_cm c name ns).1) = false := by
      rcases hfail with h | h <;> simp [isOk_andE, h]
    cases hA2 : andE (ev_zk_cm c name ns).1 (ev_nifi_cm c name ns).1 with
    | ok v => rw [hA2] at hA; simp [isOk] at hA
    | error e =>
      have htr : (handle_event c d name).2
          = (ev_zk_cm c name ns).2 ++ (ev_nifi_cm c name ns).2 := by
        simp [handle_event, hrd, hA2]
      have hz : ∀ k2, k2 ≠ Kind.ConfigMapK →
          callsOfKind k2 ((ev_zk_cm c name ns).2 ++ (ev_nifi_cm c name ns).2) = 0 := by
        intro k2 hk2
        have h1 : callsOfKind k2 (ev_zk_cm c name ns).2 = 0 :=
          create_from_yaml_calls_of c.env c.parse Kind.ConfigMapK "zk-configmap"
            (name ++ "-zookeeper") name ns c.template.zk_configmap k2 hk2
        have h2 : callsOfKind k2 (ev_nifi_cm c name ns).2 = 0 :=
          create_from_yaml_calls_of c.env c.parse Kind.ConfigMapK "nifi-configmap"
            (name ++ "-config") name ns c.template.nifi_configmap k2 hk2
        rw [callsOfKind_append, h1, h2]
      rw [htr]
      exact ⟨hz Kind.StatefulSetK (by decide), hz Kind.ServiceK (by decide),
        hz Kind.IngressK (by decide)⟩
  · intro hA hB
    cases hA2 : andE (ev_zk_cm c name ns).1 (ev_nifi_cm c name ns).1 with
    | error e => rw [hA2] at hA; simp [isOk] at hA
    | ok v =>
      cases hB2 : andE (ev_nifi_sts c d name ns).1 (ev_zk_sts c d name ns).1 with
      | ok v2 => rw [hB2] at hB; simp [isOk] at hB
      | error e =>
        have htr : (handle_event c d name).2
            = (ev_zk_cm c name ns).2 ++ (ev_nifi_cm c name ns).2
              ++ (ev_nifi_sts c d name ns).2 ++ (ev_zk_sts c d name ns).2 := by
          simp [handle_event, hrd, hA2, hB2]
        have hz : ∀ k2, k2 ≠ Kind.ConfigMapK → k2 ≠ Kind.StatefulSetK →
            callsOfKind k2 ((ev_zk_cm c name ns).2 ++ (ev_nifi_cm c name ns).2
              ++ (ev_nifi_sts c d name ns).2 ++ (ev_zk_sts c d name ns).2) = 0 := by
          intro k2 hcm hsts
          have h1 : callsOfKind k2 (ev_zk_cm c name ns).2 = 0 :=
            create_from_yaml_calls_of c.env c.parse Kind.ConfigMapK "zk-configmap"
              (name ++ "-zookeeper") name ns c.template.zk_configmap k2 hcm
          have h2 : callsOfKind k2 (ev_nifi_cm c name ns).2 = 0 :=
            create_from_yaml_calls_of c.env c.parse Kind.ConfigMapK "nifi-configmap"
              (name ++ "-config") name ns c.template.nifi_configmap k2 hcm
          have h3 : callsOfKind k2 (ev_nifi_sts c d name ns).2 = 0 :=
            create_from_yaml_calls_of c.env c.parse Kind.StatefulSetK "nifi-statefulset"
              name name ns
              (fun n => c.template.nifi_statefulset n d.spec.nifi_replicas d.spec.image_name
                d.spec.storage_class) k2 hsts
          have h4 : callsOfKind k2 (ev_zk_sts c d name ns).2 = 0 :=
            create_from_yaml_calls_of c.env c.parse Kind.StatefulSetK "zk-statefulset"
              (zk_set_name name) name ns
              (fun n => c.template.zk_statefulset n d.spec.zk_replicas d.spec.zk_image_name
                d.spec.storage_class) k2 hsts
          rw [callsOfKind_append, callsOfKind_append, callsOfKind_append, h1, h2, h3, h4]
        rw [htr]
        exact ⟨hz Kind.ServiceK (by decide) (by decide),
          hz Kind.IngressK (by decide) (by decide)⟩

/-- Witness for thm_c1_tier_ordering: the zk configmap template fails, so
the zk-ConfigMap ensure fails and the trace holds no StatefulSet call. -/
theorem thm_c1_tier_ordering_witness :
    isOk (ev_zk_cm ctrlZkErr "nifi" "ns1").1 = false
    ∧ callsOfKind Kind.StatefulSetK (handle_event ctrlZkErr dW "nifi").2 = 0 :=
  ⟨rfl, ((thm_c1_tier_ordering ctrlZkErr dW "nifi" "ns1" rfl).1 (Or.inl rfl)).1⟩

/-- Claim C6: when the ingress renderer yields no manifest for the
deployment name, the ingress ensure branch always succeeds (returning
none with no error when the resource is absent) and never issues an
Ingress create call anywhere in the on_add trace; consequently, whenever
the rest of handle_event succeeds, on_add succeeds with an empty
status.error. -/
theorem thm_c6_disabled (c : NiFiController) (d : NiFiDeployment) (name : String)
    (hn : d.metadata.name = some name)
    (hing : c.template.ingress name = Except.ok none) :
    (∀ ns, isOk (ev_ingress c name ns).1 = true
       ∧ countCreatesOf Kind.IngressK (ev_ingress c name ns).2 = 0)
    ∧ countCreatesOf Kind.IngressK (on_add c d).2 = 0
    ∧ ((handle_event c d name).1 = Except.ok () →
        on_add c d = (Except.ok (some { name := name,
                                        status := { error := "", last_action := "add" } }),
                      (handle_event c d name).2)) := by
  refine ⟨?_, ?_, ?_⟩
  · intro ns
    have hy := create_from_yaml_yaml_none c.env c.parse Kind.IngressK "ingress"
      (name ++ "-ingress") name ns c.template.ingress hing
    exact ⟨hy.1,
      create_from_yaml_yaml_none_creates c.env c.parse Kind.IngressK "ingress"
        (name ++ "-ingress") name ns c.template.ingress hing Kind.IngressK⟩
  · have htr0 : (on_add c d).2 = (handle_event c d name).2 := by
      simp [on_add, handle_action, hn]
    rw [htr0]
    cases hrn : read_namespace d with
    | error e => simp [handle_event, hrn, countCreatesOf, List.countP_nil]
    | ok ns =>
      have h1 : countCreatesOf Kind.IngressK (ev_zk_cm c name ns).2 = 0 :=
        create_from_yaml_creates_of c.env c.parse Kind.ConfigMapK "zk-configmap"
          (name ++ "-zookeeper") name ns c.template.zk_configmap Kind.IngressK (by decide)
      have h2 : countCreatesOf Kind.IngressK (ev_nifi_cm c name ns).2 = 0 :=
        create_from_yaml_creates_of c.env c.parse Kind.ConfigMapK "nifi-configmap"
          (name ++ "-config") name ns c.template.nifi_configmap Kind.IngressK (by decide)
      have h3 : countCreatesOf Kind.IngressK (ev_nifi_sts c d name ns).2 = 0 :=
        create_from_yaml_creates_of c.env c.parse Kind.StatefulSetK "nifi-statefulset"
          name name ns
          (fun n => c.template.nifi_statefulset n d.spec.nifi_replicas d.spec.image_name
            d.spec.storage_class) Kind.IngressK (by decide)
      have h4 : countCreatesOf Kind.IngressK (ev_zk_sts c d name ns).2 = 0 :=
        create_from_yaml_creates_of c.env c.parse Kind.StatefulSetK "zk-statefulset"
          (zk_set_name name) name ns
          (fun n => c.template.zk_statefulset n d.spec.zk_replicas d.spec.zk_image_name
            d.spec.storage_class) Kind.IngressK (by decide)
      have h5 : countCreatesOf Kind.IngressK (ev_service c name ns).2 = 0 :=
        create_from_yaml_creates_of c.env c.parse Kind.ServiceK "nifi-service"
          name name ns c.template.nifi_service Kind.IngressK (by decide)
      have h6 : countCreatesOf Kind.IngressK (ev_headless_service c name ns).2 = 0 :=
        create_from_yaml_creates_of c.env c.parse Kind.ServiceK "nifi-headless-service"
          (name ++ "-headless") name ns c.template.nifi_headless_service Kind.IngressK
          (by decide)
      have h7 : countCreatesOf Kind.IngressK (ev_zk_service c name ns).2 = 0 :=
        create_from_yaml_creates_of c.env c.parse Kind.ServiceK "zk-service"
          (name ++ "-zookeeper") name ns c.template.zk_service Kind.IngressK (by decide)
      have h8 : countCreatesOf Kind.IngressK (ev_zk_headless_service c name ns).2 = 0 :=
        create_from_yaml_creates_of c.env c.parse Kind.ServiceK "zk-headless-service"
          (name ++ "-zookeeper-headless") name ns c.template.zk_headless_service Kind.IngressK
          (by decide)
      have h9 : countCreatesOf Kind.IngressK (ev_ingress c name ns).2 = 0 :=
        create_from_yaml_yaml_none_creates c.env c.parse Kind.IngressK "ingress"
          (name ++ "-ingress") name ns c.template.ingress hing Kind.IngressK
      cases hA : andE (ev_zk_cm c name ns).1 (ev_nifi_cm c name ns).1 with
      | error e =>
        have htr : (handle_event c d name).2
            = (ev_zk_cm c name ns).2 ++ (ev_nifi_cm c name ns).2 := by
          simp [handle_event, hrn, hA]
        rw [htr, countCreatesOf_append, h1, h2]
      | ok v =>
        cases hB : andE (ev_nifi_sts c d name ns).1 (ev_zk_sts c d name ns).1 with
        | error e =>
          have htr : (handle_event c d name).2
              = (ev_zk_cm c name ns).2 ++ (ev_nifi_cm c name ns).2
                ++ (ev_nifi_sts c d name ns).2 ++ (ev_zk_sts c d name ns).2 := by
            simp [handle_event, hrn, hA, hB]
          rw [htr, countCreatesOf_append, countCreatesOf_append, countCreatesOf_append,
            h1, h2, h3, h4]
        | ok v2 =>
          have htr : (handle_event c d name).2
              = (ev_zk_cm c name ns).2 ++ (ev_nifi_cm c name ns).2
                ++ (ev_nifi_sts c d name ns).2 ++ (ev_zk_sts c d name ns).2
                ++ (ev_service c name ns).2 ++ (ev_headless_service c name ns).2
                ++ (ev_zk_service c name ns).2 ++ (ev_zk_headless_service c name ns).2
                ++ (ev_ingress c name ns).2 := by
            cases hC : andE (andE (andE (andE (ev_service c name ns).1
                (ev_headless_service c name ns).1) (ev_zk_service c name ns).1)
                (ev_zk_headless_service c name ns).1) (ev_ingress c name ns).1 with
            | error e => simp [handle_event, hrn, hA, hB, hC]
            | ok v3 => simp [handle_event, hrn, hA, hB, hC]
          rw [htr, countCreatesOf_append, countCreatesOf_append, countCreatesOf_append,
            countCreatesOf_append, countCreatesOf_append, countCreatesOf_append,
            countCreatesOf_append, countCreatesOf_append, h1, h2, h3, h4, h5, h6, h7, h8, h9]
  · intro hok
    simp [on_add, handle_action, hn, statusErr, hok]

/-- Witness for thm_c6_disabled: ingress template disabled, every other
resource found live, so on_add succeeds with an empty status.error and no
Ingress create occurs. -/
theorem thm_c6_disabled_witness :
    tmplIngNone.ingress "nifi" = Except.ok none
    ∧ countCreatesOf Kind.IngressK (on_add ctrlIngNone dW).2 = 0
    ∧ on_add ctrlIngNone dW
        = (Except.ok (some { name := "nifi",
                             status := { error := "", last_action := "add" } }),
           (handle_event ctrlIngNone dW "nifi").2) :=
  ⟨rfl, (thm_c6_disabled ctrlIngNone dW "nifi" rfl rfl).2.1,
   (thm_c6_disabled ctrlIngNone dW "nifi" rfl rfl).2.2 rfl⟩

/-- Claim C8: naming convention — in a successful handle_event run the
ensure fetch calls use exactly the derived names zk ConfigMap
name-zookeeper, nifi ConfigMap name-config, nifi StatefulSet name, zk
StatefulSet name-zookeeper, nifi service name, headless service
name-headless, zk service name-zookeeper, zk headless service
name-zookeeper-headless and ingress name-ingress; and on_delete deletes
by name exactly the nifi StatefulSet name and the zk StatefulSet
name-zookeeper as its first two calls. -/
theorem thm_c8_naming (c : NiFiController) (env : Env) (d : NiFiDeployment)
    (name cr ns : String)
    (hns : d.metadata.ns = some ns)
    (hok : (handle_event c d name).1 = Except.ok ())
    (hn : d.metadata.name = some cr) :
    (handle_event c d name).2.filter isGetCall
      = [ApiCall.get Kind.ConfigMapK (name ++ "-zookeeper") ns,
         ApiCall.get Kind.ConfigMapK (name ++ "-config") ns,
         ApiCall.get Kind.StatefulSetK name ns,
         ApiCall.get Kind.StatefulSetK (name ++ "-zookeeper") ns,
         ApiCall.get Kind.ServiceK name ns,
         ApiCall.get Kind.ServiceK (name ++ "-headless") ns,
         ApiCall.get Kind.ServiceK (name ++ "-zookeeper") ns,
         ApiCall.get Kind.ServiceK (name ++ "-zookeeper-headless") ns,
         ApiCall.get Kind.IngressK (name ++ "-ingress") ns]
    ∧ (on_delete env d).2.take 2
      = [ApiCall.delete Kind.StatefulSetK cr ns,
         ApiCall.delete Kind.StatefulSetK (cr ++ "-zookeeper") ns] := by
  have hrd : read_namespace d = Except.ok ns := by simp [read_namespace, hns]
  have hrn2 : read_name d = Except.ok cr := by simp [read_name, hn]
  constructor
  · have g1 : (ev_zk_cm c name ns).2.filter isGetCall
        = [ApiCall.get Kind.ConfigMapK (name ++ "-zookeeper") ns] :=
      create_from_yaml_gets c.env c.parse Kind.ConfigMapK "zk-configmap"
        (name ++ "-zookeeper") name ns c.template.zk_configmap
    have g2 : (ev_nifi_cm c name ns).2.filter isGetCall
        = [ApiCall.get Kind.ConfigMapK (name ++ "-config") ns] :=
      create_from_yaml_gets c.env c.parse Kind.ConfigMapK "nifi-configmap"
        (name ++ "-config") name ns c.template.nifi_configmap
    have g3 : (ev_nifi_sts c d name ns).2.filter isGetCall
        = [ApiCall.get Kind.StatefulSetK name ns] :=
      create_from_yaml_gets c.env c.parse Kind.StatefulSetK "nifi-statefulset"
        name name ns
        (fun n => c.template.nifi_statefulset n d.spec.nifi_replicas d.spec.image_name
          d.spec.storage_class)
    have g4 : (ev_zk_sts c d name ns).2.filter isGetCall
        = [ApiCall.get Kind.StatefulSetK (name ++ "-zookeeper") ns] :=
      create_from_yaml_gets c.env c.parse Kind.StatefulSetK "zk-statefulset"
        (zk_set_name name) name ns
        (fun n => c.template.zk_statefulset n d.spec.zk_replicas d.spec.zk_image_name
          d.spec.storage_class)
    have g5 : (ev_service c name ns).2.filter isGetCall
        = [ApiCall.get Kind.ServiceK name ns] :=
      create_from_yaml_gets c.env c.parse Kind.ServiceK "nifi-service"
        name name ns c.template.nifi_service
    have g6 : (ev_headless_service c name ns).2.filter isGetCall
        = [ApiCall.get Kind.ServiceK (name ++ "-headless") ns] :=
      create_from_yaml_gets c.env c.parse Kind.ServiceK "nifi-headless-service"
        (name ++ "-headless") name ns c.template.nifi_headless_service
    have g7 : (ev_zk_service c name ns).2.filter isGetCall
        = [ApiCall.get Kind.ServiceK (name ++ "-zookeeper") ns] :=
      create_from_yaml_gets c.env c.parse Kind.ServiceK "zk-service"
        (name ++ "-zookeeper") name ns c.template.zk_service
    have g8 : (ev_zk_headless_service c name ns).2.filter isGetCall
        = [ApiCall.get Kind.ServiceK (name ++ "-zookeeper-headless") ns] :=
      create_from_yaml_gets c.env c.parse Kind.ServiceK "zk-headless-service"
        (name ++ "-zookeeper-headless") name ns c.template.zk_headless_service
    have g9 : (ev_ingress c name ns).2.filter isGetCall
        = [ApiCall.get Kind.IngressK (name ++ "-ingress") ns] :=
      create_from_yaml_gets c.env c.parse Kind.IngressK "ingress"
        (name ++ "-ingress") name ns c.template.ingress
    cases hA : andE (ev_zk_cm c name ns).1 (ev_nifi_cm c name ns).1 with
    | error e => simp [handle_event, hrd, hA] at hok
    | ok v =>
      cases hB : andE (ev_nifi_sts c d name ns).1 (ev_zk_sts c d name ns).1 with
      | error e => simp [handle_event, hrd, hA, hB] at hok
      | ok v2 =>
        cases hC : andE (andE (andE (andE (ev_service c name ns).1
            (ev_headless_service c name ns).1) (ev_zk_service c name ns).1)
            (ev_zk_headless_service c name ns).1) (ev_ingress c name ns).1 with
        | error e => simp [handle_event, hrd, hA, hB, hC] at hok
        | ok v3 =>
          have htr : (handle_event c d name).2
              = (ev_zk_cm c name ns).2 ++ (ev_nifi_cm c name ns).2
                ++ (ev_nifi_sts c d name ns).2 ++ (ev_zk_sts c d name ns).2
                ++ (ev_service c name ns).2 ++ (ev_headless_service c name ns).2
                ++ (ev_zk_service c name ns).2 ++ (ev_zk_headless_service c name ns).2
                ++ (ev_ingress c name ns).2 := by
            simp [handle_event, hrd, hA, hB, hC]
          rw [htr]
          simp [List.filter_append, g1, g2, g3, g4, g5, g6, g7, g8, g9]
  · cases hD : andE (env.deleteR Kind.StatefulSetK cr ns)
        (env.deleteR Kind.StatefulSetK (zk_set_name cr) ns) with
    | error e =>
      rw [zk_set_name] at hD
      simp [on_delete, hrd, hrn2, hD, zk_set_name]
    | ok v =>
      rw [zk_set_name] at hD
      simp [on_delete, hrd, hrn2, hD, zk_set_name]

/-- Witness for thm_c8_naming over the all-found oracle (handle_event
succeeds without creating anything). -/
theorem thm_c8_naming_witness :
    (handle_event ctrlAllGet dW "nifi").1 = Except.ok ()
    ∧ (handle_event ctrlAllGet dW "nifi").2.filter isGetCall
        = [ApiCall.get Kind.ConfigMapK "nifi-zookeeper" "ns1",
           ApiCall.get Kind.ConfigMapK "nifi-config" "ns1",
           ApiCall.get Kind.StatefulSetK "nifi" "ns1",
           ApiCall.get Kind.StatefulSetK "nifi-zookeeper" "ns1",
           ApiCall.get Kind.ServiceK "nifi" "ns1",
           ApiCall.get Kind.ServiceK "nifi-headless" "ns1",
           ApiCall.get Kind.ServiceK "nifi-zookeeper" "ns1",
           ApiCall.get Kind.ServiceK "nifi-zookeeper-headless" "ns1",
           ApiCall.get Kind.IngressK "nifi-ingress" "ns1"]
    ∧ (on_delete envAllGet dW).2.take 2
        = [ApiCall.delete Kind.StatefulSetK "nifi" "ns1",
           ApiCall.delete Kind.StatefulSetK "nifi-zookeeper" "ns1"] :=
  ⟨rfl,
   (thm_c8_naming ctrlAllGet envAllGet dW "nifi" "nifi" "ns1" rfl rfl rfl).1,
   (thm_c8_naming ctrlAllGet envAllGet dW "nifi" "nifi" "ns1" rfl rfl rfl).2⟩

theorem andE_ok_left {α β : Type} (u : α) (b : Except Err β) :
    andE (Except.ok u) b = b := rfl

/-- Claim C2 counterexample: on an oracle whose label queries would find
three Services, two ConfigMaps and one Ingress, but whose nifi
StatefulSet delete fails, on_delete issues only the two StatefulSet
delete calls and returns the error — the six label-query deletes are
never attempted, so the claim that all 8 delete calls are still issued
even when some fail is false at this input. -/
theorem thm_c2_counterexample :
    envC2x.listR Kind.ServiceK "ns1" cascade_labels = Except.ok ["s1", "s2", "s3"]
    ∧ envC2x.listR Kind.ConfigMapK "ns1" cascade_labels = Except.ok ["c1", "c2"]
    ∧ envC2x.listR Kind.IngressK "ns1" cascade_labels = Except.ok ["i1"]
    ∧ on_delete envC2x dW
        = (Except.error (Err.apiError "boom"),
           [ApiCall.delete Kind.StatefulSetK "nifi" "ns1",
            ApiCall.delete Kind.StatefulSetK "nifi-zookeeper" "ns1"])
    ∧ countDeletes (on_delete envC2x dW).2 = 2 :=
  ⟨rfl, rfl, rfl, rfl, rfl⟩

/-- Claim C2 (amended): when both StatefulSet deletes succeed and the
label query finds three Services, two ConfigMaps and one Ingress,
on_delete attempts exactly 8 delete calls — all of them issued regardless
of the outcome of any individual label-query delete — and the overall
result is ok iff every one of the six label-query deletes succeeded; if a
StatefulSet delete fails, only the two StatefulSet deletes are issued
(see the counterexample). -/
theorem thm_c2_cascade_amended (env : Env) (d : NiFiDeployment)
    (cr ns sa sb sc ca cb ia : String)
    (hn : d.metadata.name = some cr) (hns : d.metadata.ns = some ns)
    (hd1 : env.deleteR Kind.StatefulSetK cr ns = Except.ok ())
    (hd2 : env.deleteR Kind.StatefulSetK (cr ++ "-zookeeper") ns = Except.ok ())
    (hls : env.listR Kind.ServiceK ns cascade_labels = Except.ok [sa, sb, sc])
    (hlc : env.listR Kind.ConfigMapK ns cascade_labels = Except.ok [ca, cb])
    (hli : env.listR Kind.IngressK ns cascade_labels = Except.ok [ia]) :
    (on_delete env d).2
      = [ApiCall.delete Kind.StatefulSetK cr ns,
         ApiCall.delete Kind.StatefulSetK (cr ++ "-zookeeper") ns,
         ApiCall.list Kind.ServiceK ns cascade_labels,
         ApiCall.delete Kind.ServiceK sa ns,
         ApiCall.delete Kind.ServiceK sb ns,
         ApiCall.delete Kind.ServiceK sc ns,
         ApiCall.list Kind.ConfigMapK ns cascade_labels,
         ApiCall.delete Kind.ConfigMapK ca ns,
         ApiCall.delete Kind.ConfigMapK cb ns,
         ApiCall.list Kind.IngressK ns cascade_labels,
         ApiCall.delete Kind.IngressK ia ns]
    ∧ countDeletes (on_delete env d).2 = 8
    ∧ (isOk (on_delete env d).1 = true ↔
        (isOk (env.deleteR Kind.ServiceK sa ns) = true
         ∧ isOk (env.deleteR Kind.ServiceK sb ns) = true
         ∧ isOk (env.deleteR Kind.ServiceK sc ns) = true
         ∧ isOk (env.deleteR Kind.ConfigMapK ca ns) = true
         ∧ isOk (env.deleteR Kind.ConfigMapK cb ns) = true
         ∧ isOk (env.deleteR Kind.IngressK ia ns) = true)) := by
  have hrd : read_namespace d = Except.ok ns := by simp [read_namespace, hns]
  have hrn : read_name d = Except.ok cr := by simp [read_name, hn]
  refine ⟨?_, ?_, ?_⟩
  · simp [on_delete, hrd, hrn, zk_set_name, hd1, hd2, andE, delete_resources,
      hls, hlc, hli]
  · simp [on_delete, hrd, hrn, zk_set_name, hd1, hd2, andE, delete_resources,
      hls, hlc, hli, countDeletes, List.countP_cons, List.countP_nil, isDeleteCall]
  · have h8 : (on_delete env d).1
        = andE (andE
            (andE (andE (env.deleteR Kind.ServiceK sa ns) (env.deleteR Kind.ServiceK sb ns))
              (env.deleteR Kind.ServiceK sc ns))
            (andE (env.deleteR Kind.ConfigMapK ca ns) (env.deleteR Kind.ConfigMapK cb ns)))
          (env.deleteR Kind.IngressK ia ns) := by
      simp [on_delete, hrd, hrn, zk_set_name, hd1, hd2, delete_resources,
        hls, hlc, hli, andE_ok_left, List.foldl]
    rw [h8]
    simp [isOk_andE, Bool.and_eq_true, and_assoc]

/-- Witness for thm_c2_cascade_amended: every delete succeeds, so all 8
delete calls appear in the trace. -/
theorem thm_c2_cascade_amended_witness :
    envC2ok.deleteR Kind.StatefulSetK "nifi" "ns1" = Except.ok ()
    ∧ envC2ok.listR Kind.ServiceK "ns1" cascade_labels = Except.ok ["s1", "s2", "s3"]
    ∧ countDeletes (on_delete envC2ok dW).2 = 8
    ∧ isOk (on_delete envC2ok dW).1 = true :=
  ⟨rfl, rfl,
   (thm_c2_cascade_amended envC2ok dW "nifi" "ns1" "s1" "s2" "s3" "c1" "c2" "i1"
     rfl rfl rfl rfl rfl rfl rfl).2.1,
   ((thm_c2_cascade_amended envC2ok dW "nifi" "ns1" "s1" "s2" "s3" "c1" "c2" "i1"
     rfl rfl rfl rfl rfl rfl rfl).2.2).mpr ⟨rfl, rfl, rfl, rfl, rfl, rfl⟩⟩

/-- Claim C4: for a deployment whose nifi ConfigMap already exists (and
whose zk ConfigMap exists too), if the live data payload differs from the
freshly rendered payload then exactly one delete followed by one create
is issued for that ConfigMap and handle_configmaps (syncConfigData)
returns true; if the payloads are identical, or rendering yields no
manifest, zero delete and create calls occur and it returns false. -/
theorem thm_c4_drift (env : Env) (parse : String → Except Err Resource)
    (t : CmTemplate) (d : NiFiDeployment) (name ns : String) (zkr cur : Resource)
    (h1 : env.getR Kind.ConfigMapK (name ++ "-zookeeper") ns = Except.ok zkr)
    (h2 : env.getR Kind.ConfigMapK (name ++ "-config") ns = Except.ok cur) :
    (∀ y exp m y2 exp2 r3,
       t.nifi_configmap (name ++ "-config") d.spec.ldap = Except.ok (some y) →
       parse y = Except.ok exp →
       cur.data ≠ exp.data →
       env.deleteR Kind.ConfigMapK (name ++ "-config") ns = Except.ok () →
       env.getR Kind.ConfigMapK name ns = Except.error m →
       t.nifi_configmap name d.spec.ldap = Except.ok (some y2) →
       parse y2 = Except.ok exp2 →
       env.createR Kind.ConfigMapK ns exp2 = Except.ok r3 →
       handle_configmaps env parse t d name ns
         = (Except.ok true,
            [ApiCall.get Kind.ConfigMapK (name ++ "-zookeeper") ns,
             ApiCall.get Kind.ConfigMapK (name ++ "-config") ns,
             ApiCall.render "nifi-configmap" (name ++ "-config"),
             ApiCall.delete Kind.ConfigMapK (name ++ "-config") ns,
             ApiCall.get Kind.ConfigMapK name ns,
             ApiCall.render "nifi-configmap" name,
             ApiCall.create Kind.ConfigMapK exp2.name ns])
       ∧ countDeletes (handle_configmaps env parse t d name ns).2 = 1
       ∧ countCreates (handle_configmaps env parse t d name ns).2 = 1)
    ∧ (∀ y exp,
       t.nifi_configmap (name ++ "-config") d.spec.ldap = Except.ok (some y) →
       parse y = Except.ok exp →
       cur.data = exp.data →
       handle_configmaps env parse t d name ns
         = (Except.ok false,
            [ApiCall.get Kind.ConfigMapK (name ++ "-zookeeper") ns,
             ApiCall.get Kind.ConfigMapK (name ++ "-config") ns,
             ApiCall.render "nifi-configmap" (name ++ "-config")])
       ∧ countDeletes (handle_configmaps env parse t d name ns).2 = 0
       ∧ countCreates (handle_configmaps env parse t d name ns).2 = 0)
    ∧ (t.nifi_configmap (name ++ "-config") d.spec.ldap = Except.ok none →
       handle_configmaps env parse t d name ns
         = (Except.ok false,
            [ApiCall.get Kind.ConfigMapK (name ++ "-zookeeper") ns,
             ApiCall.get Kind.ConfigMapK (name ++ "-config") ns,
             ApiCall.render "nifi-configmap" (name ++ "-config")])
       ∧ countDeletes (handle_configmaps env parse t d name ns).2 = 0
       ∧ countCreates (handle_configmaps env parse t d name ns).2 = 0) := by
  refine ⟨?_, ?_, ?_⟩
  · intro y exp m y2 exp2 r3 hy hp hne hdel hm hy2 hp2 hcr
    have hmain : handle_configmaps env parse t d name ns
        = (Except.ok true,
           [ApiCall.get Kind.ConfigMapK (name ++ "-zookeeper") ns,
            ApiCall.get Kind.ConfigMapK (name ++ "-config") ns,
            ApiCall.render "nifi-configmap" (name ++ "-config"),
            ApiCall.delete Kind.ConfigMapK (name ++ "-config") ns,
            ApiCall.get Kind.ConfigMapK name ns,
            ApiCall.render "nifi-configmap" name,
            ApiCall.create Kind.ConfigMapK exp2.name ns]) := by
      simp [handle_configmaps, get_or_create, h1, h2, andE_ok_left, handle_update, hy, hp,
        hne, recreate_cm, hdel, cm_create_from_yaml, create_from_yaml, hm, hy2, hp2, hcr,
        Except.map]
    refine ⟨hmain, ?_, ?_⟩ <;> rw [hmain] <;> rfl
  · intro y exp hy hp heq
    have hmain : handle_configmaps env parse t d name ns
        = (Except.ok false,
           [ApiCall.get Kind.ConfigMapK (name ++ "-zookeeper") ns,
            ApiCall.get Kind.ConfigMapK (name ++ "-config") ns,
            ApiCall.render "nifi-configmap" (name ++ "-config")]) := by
      simp [handle_configmaps, get_or_create, h1, h2, andE_ok_left, handle_update, hy, hp,
        heq]
    refine ⟨hmain, ?_, ?_⟩ <;> rw [hmain] <;> rfl
  · intro hy
    have hmain : handle_configmaps env parse t d name ns
        = (Except.ok false,
           [ApiCall.get Kind.ConfigMapK (name ++ "-zookeeper") ns,
            ApiCall.get Kind.ConfigMapK (name ++ "-config") ns,
            ApiCall.render "nifi-configmap" (name ++ "-config")]) := by
      simp [handle_configmaps, get_or_create, h1, h2, andE_ok_left, handle_update, hy]
    refine ⟨hmain, ?_, ?_⟩ <;> rw [hmain] <;> rfl

/-- Witness for thm_c4_drift: the live nifi ConfigMap payload differs
from the rendered one, so exactly one delete and one create occur. -/
theorem thm_c4_drift_witness :
    (some [("old", "x")] : Option (List (String × String)))
        ≠ some [("data", "nifi-cm-nifi-config")]
    ∧ handle_configmaps envDrift parse0 tcm0 dW "nifi" "ns1"
        = (Except.ok true,
           [ApiCall.get Kind.ConfigMapK "nifi-zookeeper" "ns1",
            ApiCall.get Kind.ConfigMapK "nifi-config" "ns1",
            ApiCall.render "nifi-configmap" "nifi-config",
            ApiCall.delete Kind.ConfigMapK "nifi-config" "ns1",
            ApiCall.get Kind.ConfigMapK "nifi" "ns1",
            ApiCall.render "nifi-configmap" "nifi",
            ApiCall.create Kind.ConfigMapK "nifi-cm-nifi" "ns1"])
    ∧ countDeletes (handle_configmaps envDrift parse0 tcm0 dW "nifi" "ns1").2 = 1
    ∧ countCreates (handle_configmaps envDrift parse0 tcm0 dW "nifi" "ns1").2 = 1 :=
  ⟨by decide,
   ((thm_c4_drift envDrift parse0 tcm0 dW "nifi" "ns1"
      { name := "nifi-zookeeper", data := none }
      { name := "nifi-config", data := some [("old", "x")] } rfl rfl).1
     "nifi-cm-nifi-config"
     { name := "nifi-cm-nifi-config", data := some [("data", "nifi-cm-nifi-config")] }
     (Err.apiError "not found") "nifi-cm-nifi"
     { name := "nifi-cm-nifi", data := some [("data", "nifi-cm-nifi")] }
     { name := "nifi-cm-nifi", data := some [("data", "nifi-cm-nifi")] }
     rfl rfl (by decide) rfl rfl rfl rfl rfl).1,
   ((thm_c4_drift envDrift parse0 tcm0 dW "nifi" "ns1"
      { name := "nifi-zookeeper", data := none }
      { name := "nifi-config", data := some [("old", "x")] } rfl rfl).1
     "nifi-cm-nifi-config"
     { name := "nifi-cm-nifi-config", data := some [("data", "nifi-cm-nifi-config")] }
     (Err.apiError "not found") "nifi-cm-nifi"
     { name := "nifi-cm-nifi", data := some [("data", "nifi-cm-nifi")] }
     { name := "nifi-cm-nifi", data := some [("data", "nifi-cm-nifi")] }
     rfl rfl (by decide) rfl rfl rfl rfl rfl).2.1,
   ((thm_c4_drift envDrift parse0 tcm0 dW "nifi" "ns1"
      { name := "nifi-zookeeper", data := none }
      { name := "nifi-config", data := some [("old", "x")] } rfl rfl).1
     "nifi-cm-nifi-config"
     { name := "nifi-cm-nifi-config", data := some [("data", "nifi-cm-nifi-config")] }
     (Err.apiError "not found") "nifi-cm-nifi"
     { name := "nifi-cm-nifi", data := some [("data", "nifi-cm-nifi")] }
     { name := "nifi-cm-nifi", data := some [("data", "nifi-cm-nifi")] }
     rfl rfl (by decide) rfl rfl rfl rfl rfl).2.2⟩

/-- Claim C10: in the ConfigMapController, the drift check (handle_update)
invokes the nifi configmap renderer with the derived ConfigMap name
name-config as the owner-name argument, whereas the initial creation path
invokes it with the deployment name itself — two different name
arguments, since name-config never equals name. -/
theorem thm_c10_render_args (env : Env) (parse : String → Except Err Resource)
    (t : CmTemplate) (d : NiFiDeployment) (name ns : String) :
    (∀ m, env.getR Kind.ConfigMapK (name ++ "-config") ns = Except.error m →
       ApiCall.render "nifi-configmap" name
         ∈ (handle_configmaps env parse t d name ns).2)
    ∧ (∀ zkr cur, env.getR Kind.ConfigMapK (name ++ "-zookeeper") ns = Except.ok zkr →
       env.getR Kind.ConfigMapK (name ++ "-config") ns = Except.ok cur →
       ApiCall.render "nifi-configmap" (name ++ "-config")
         ∈ (handle_configmaps env parse t d name ns).2)
    ∧ name ++ "-config" ≠ name := by
  refine ⟨?_, ?_, ?_⟩
  · intro m hm
    have hmem : ApiCall.render "nifi-configmap" name
        ∈ (get_or_create env parse Kind.ConfigMapK "nifi-configmap" (name ++ "-config")
            name ns (fun n => t.nifi_configmap n d.spec.ldap)).2 :=
      get_or_create_render_mem env parse Kind.ConfigMapK "nifi-configmap" (name ++ "-config")
        name ns (fun n => t.nifi_configmap n d.spec.ldap) m hm
    simp only [handle_configmaps]
    cases hA : andE
        (get_or_create env parse Kind.ConfigMapK "zk-configmap" (name ++ "-zookeeper")
          name ns t.zk_configmap).1
        (get_or_create env parse Kind.ConfigMapK "nifi-configmap" (name ++ "-config")
          name ns (fun n => t.nifi_configmap n d.spec.ldap)).1 with
    | error e =>
      simp [List.mem_append]
      tauto
    | ok v =>
      cases v with
      | left o =>
        cases o with
        | some cm =>
          simp [List.mem_append]
          tauto
        | none =>
          simp [List.mem_append]
          tauto
      | right r2 =>
        simp [List.mem_append]
        tauto
  · intro zkr cur hzk hcur
    have hmem := handle_update_render_mem env parse t d name ns (name ++ "-config") cur
    simp [handle_configmaps, get_or_create, hzk, hcur, andE_ok_left, List.mem_append]
    tauto
  · intro h
    have h2 := congrArg String.length h
    have h3 : String.length "-config" = 7 := rfl
    rw [String.length_append, h3] at h2
    omega

/-- Witness for thm_c10_render_args: with the nifi ConfigMap live, the
drift check renders with the derived ConfigMap name. -/
theorem thm_c10_render_args_witness :
    ApiCall.render "nifi-configmap" "nifi-config"
      ∈ (handle_configmaps envDrift parse0 tcm0 dW "nifi" "ns1").2
    ∧ "nifi" ++ "-config" ≠ "nifi" :=
  ⟨(thm_c10_render_args envDrift parse0 tcm0 dW "nifi" "ns1").2.1
     { name := "nifi-zookeeper", data := none }
     { name := "nifi-config", data := some [("old", "x")] } rfl rfl,
   (thm_c10_render_args envDrift parse0 tcm0 dW "nifi" "ns1").2.2⟩
